import Mathlib

/-!
Shallow embedding of `goldenverba/components/generation/GeminiGenerator.py`
(class `GPT4Generator`): the message composer `prepare_messages`, the
blocking `generate` path, and the streaming `generate_stream` receive loop,
together with theorems settling the specification claims about them.
-/

/-- A role/content message dictionary, as built by `prepare_messages`. -/
structure Message where
  role : String
  content : String
deriving DecidableEq

/-- A prior conversation entry as consumed by `prepare_messages`: the source
reads `message.type` and `message.content` from each entry. -/
structure Turn where
  type : String
  content : String
deriving DecidableEq

/-- The message dictionary `prepare_messages` appends for a conversation
entry: `{"role": message.type, "content": message.content}`. -/
def turnToMessage (m : Turn) : Message :=
  { role := m.type, content := m.content }

/-- The fixed system instruction string of `prepare_messages`. -/
def system_prompt : String :=
  "You are Verba, The Golden RAGtriever, a chatbot for Retrieval Augmented Generation (RAG). You will receive a user query and context pieces that have a semantic similarity to that specific query. Please answer these user queries only their provided context. If the provided documentation does not provide enough information, say so. If the user asks questions about you as a chatbot specifially, answer them naturally. If the answer requires code examples encapsulate them with ```programming-language-name ```. Don\x27t do pseudo-code."

/-- `GPT4Generator.prepare_messages`: one system message, the conversation
entries mapped to role/content dictionaries in order, then one user message
built from the space-joined queries and context
(`" ".join(queries)`, `" ".join(context)`). -/
def prepare_messages (queries context : List String) (conversation : List Turn) :
    List Message :=
  let messages : List Message := [{ role := "system", content := system_prompt }]
  let messages := messages ++ conversation.map turnToMessage
  let query := String.intercalate " " queries
  let user_context := String.intercalate " " context
  messages ++
    [{ role := "user",
       content := "Please answer this query: \x27" ++ query ++
         "\x27 with this provided context: " ++ user_context }]

/-- The `delta` dictionary of a streamed choice; `content` is `none` when the
key `"content"` is absent from the delta. -/
structure Delta where
  content : Option String
deriving DecidableEq

/-- One element of a streamed chunk's `choices` list. -/
structure Choice where
  delta : Delta
  finish_reason : Option String
deriving DecidableEq

/-- A streamed completion chunk. -/
structure Chunk where
  choices : List Choice
deriving DecidableEq

/-- The dictionary yielded by `generate_stream` for one chunk:
`{"message": ..., "finish_reason": ...}`. -/
structure TokenEvent where
  message : String
  finish_reason : Option String
deriving DecidableEq

/-- The loop body of `generate_stream` for one received chunk: a chunk with no
choices yields nothing; otherwise exactly one event is yielded, whose message
is the first choice's delta content when the `"content"` key is present and
`""` otherwise, and whose finish reason is copied from the first choice. -/
def processChunk (chunk : Chunk) : List TokenEvent :=
  match chunk.choices with
  | [] => []
  | choice :: _ =>
    match choice.delta.content with
    | some s => [{ message := s, finish_reason := choice.finish_reason }]
    | none => [{ message := "", finish_reason := choice.finish_reason }]

/-- One result of awaiting `completion.__anext__()` in the receive loop:
a chunk, the end-of-stream signal (`StopAsyncIteration`), or another
exception raised by the transport. -/
inductive Pull where
  | item (c : Chunk)
  | stop
  | raise (e : String)
deriving DecidableEq

/-- The `while True` receive loop of `generate_stream` over a finite script
of pull results: chunks are processed in order until `StopAsyncIteration`
ends the loop normally (`except StopAsyncIteration: pass`) or another
exception escapes through `except Exception: raise`. Returns the events
yielded before termination and the propagated exception, if any. -/
def runStream : List Pull → List TokenEvent × Option String
  | [] => ([], none)
  | Pull.stop :: _ => ([], none)
  | Pull.raise e :: _ => ([], some e)
  | Pull.item c :: rest =>
    let r := runStream rest
    (processChunk c ++ r.1, r.2)

/-- The mutable module-level state of the `openai` SDK that the source reads
and assigns (`api_key`, `api_base`, `api_type`, `api_version`). -/
structure OpenAIModule where
  api_key : Option String
  api_base : String
  api_type : String
  api_version : Option String
deriving DecidableEq

/-- The `chat_completion_arguments` dictionary: `deployment_id` is absent
(`none`) unless the azure branch inserts it; `temperature` is absent in the
blocking path and `0.0` in the streaming path. -/
structure ChatRequest where
  model : String
  messages : List Message
  stream : Bool
  temperature : Option ℚ
  deployment_id : Option String
deriving DecidableEq

/-- A Python exception as it surfaces from the blocking path. -/
inductive PyError where
  | nameError (missing : String)
  | indexError
deriving DecidableEq

/-- Names bound at module level in `GeminiGenerator.py`: its imports
(`asyncio`, `os`, `Iterator`, `vertexai`, `GenerativeModel`, `load_dotenv`,
`Generator`) and the class it defines. `openai` is not among them: it is
imported only inside the body of `generate_stream`. -/
def moduleNames : List String :=
  ["asyncio", "os", "Iterator", "vertexai", "GenerativeModel",
   "load_dotenv", "Generator", "GPT4Generator"]

/-- Names in scope inside the body of `generate`: its parameters and local
assignments, plus the module-level names. -/
def generateScope : List String :=
  ["self", "queries", "context", "conversation", "messages", "project_id",
   "REGION", "chat_completion_arguments", "base_url", "completion",
   "system_msg"] ++ moduleNames

/-- Evaluating the name `openai` in a scope: succeeds with the SDK module
state when the name is bound, raises `NameError` otherwise. -/
def resolveOpenai (scope : List String) (oai : OpenAIModule) :
    Except PyError OpenAIModule :=
  if "openai" ∈ scope then Except.ok oai else Except.error (PyError.nameError "openai")

/-- A choice of a non-streaming completion response. -/
structure MsgChoice where
  message : Message
deriving DecidableEq

/-- A non-streaming completion response. -/
structure BlockingCompletion where
  choices : List MsgChoice
deriving DecidableEq

/-- `GPT4Generator.generate`: composes the messages, then inside the `try`
block reads the project id, calls `vertexai.init` (an external call that does
not affect the returned value), builds `chat_completion_arguments`, and then
evaluates `openai.api_type` — the first reference to the name `openai`, which
is unbound in this scope, so a `NameError` is raised and re-raised unchanged
by `except Exception: raise`. The continuation after that reference is
embedded as the source writes it (azure deployment id, one backend call,
extraction of the first choice's message content), reachable only if the name
resolved. Returns the list of backend requests actually issued together with
the result. -/
def generate (oai : OpenAIModule) (env : String → Option String)
    (backend : ChatRequest → BlockingCompletion) (model_name : String)
    (queries context : List String) (conversation : List Turn) :
    List ChatRequest × Except PyError String :=
  let messages := prepare_messages queries context conversation
  let _project_id := env "GOOGLE_CLOUD_PROJECT"
  match resolveOpenai generateScope oai with
  | Except.error e => ([], Except.error e)
  | Except.ok oai =>
    let baseArgs : ChatRequest :=
      { model := model_name, messages := messages, stream := false,
        temperature := none, deployment_id := none }
    let args :=
      if oai.api_type = "azure" then { baseArgs with deployment_id := some model_name }
      else baseArgs
    let completion := backend args
    match completion.choices with
    | [] => ([args], Except.error PyError.indexError)
    | choice :: _ => ([args], Except.ok choice.message.content)

/-- The API routing mode in effect when `generate_stream` builds its request:
the `OPENAI_API_TYPE` environment override when present, otherwise the SDK
module's current `api_type`. -/
def effectiveApiType (oai : OpenAIModule) (env : String → Option String) : String :=
  match env "OPENAI_API_TYPE" with
  | some v => v
  | none => oai.api_type

/-- `GPT4Generator.generate_stream`: composes the messages, imports `openai`
locally, applies the environment-driven SDK mutations in source order
(`api_key`, `OPENAI_BASE_URL`, `OPENAI_API_TYPE`, `OPENAI_API_BASE`,
`OPENAI_API_VERSION`), builds the streaming `chat_completion_arguments`
(stream flag set, temperature 0.0, deployment id only in the azure branch),
and runs the receive loop over the transport's pull script. Returns the
request issued and the loop's outcome. -/
def generate_stream (oai : OpenAIModule) (env : String → Option String)
    (model_name : String) (queries context : List String)
    (conversation : List Turn) (pulls : List Pull) :
    ChatRequest × (List TokenEvent × Option String) :=
  let messages := prepare_messages queries context conversation
  let oai := { oai with api_key := env "OPENAI_API_KEY" }
  let base_url := (env "OPENAI_BASE_URL").getD ""
  let oai := if base_url ≠ "" then { oai with api_base := base_url } else oai
  let oai :=
    match env "OPENAI_API_TYPE" with
    | some v => { oai with api_type := v }
    | none => oai
  let oai :=
    match env "OPENAI_API_BASE" with
    | some v => { oai with api_base := v }
    | none => oai
  let oai :=
    match env "OPENAI_API_VERSION" with
    | some v => { oai with api_version := some v }
    | none => oai
  let baseArgs : ChatRequest :=
    { model := model_name, messages := messages, stream := true,
      temperature := some 0, deployment_id := none }
  let args :=
    if oai.api_type = "azure" then { baseArgs with deployment_id := some model_name }
    else baseArgs
  (args, runStream pulls)

/-- An environment with no variables set, for concrete evaluation. -/
def envEmpty : String → Option String := fun _ => none

/-- The `openai` SDK module's default state. -/
def oaiDefault : OpenAIModule :=
  { api_key := none, api_base := "https://api.openai.com/v1",
    api_type := "open_ai", api_version := none }

/-- A backend that would answer Scenario A's question if it were reached. -/
def backendFixed : ChatRequest → BlockingCompletion :=
  fun _ =>
    { choices := [{ message := { role := "assistant", content := "X is a protocol." } }] }

lemma prepare_messages_eq (queries context : List String) (conversation : List Turn) :
    prepare_messages queries context conversation =
      { role := "system", content := system_prompt } ::
        (conversation.map turnToMessage ++
          [{ role := "user",
             content := "Please answer this query: \x27" ++
               String.intercalate " " queries ++
               "\x27 with this provided context: " ++
               String.intercalate " " context }]) := by
  simp [prepare_messages]

/-- Claim C1: for all inputs with non-empty queries and context,
`prepare_messages` returns a sequence of length `2 + |conversation|` whose
first entry has role `system`, whose last entry has role `user`, and whose
middle entries are the conversation turns unchanged, in original order. -/
theorem prepare_messages_shape (queries context : List String)
    (conversation : List Turn) (hq : queries ≠ []) (hc : context ≠ []) :
    (prepare_messages queries context conversation).length = 2 + conversation.length ∧
    ((prepare_messages queries context conversation).head?).map Message.role = some "system" ∧
    ((prepare_messages queries context conversation).getLast?).map Message.role = some "user" ∧
    ((prepare_messages queries context conversation).drop 1).take conversation.length =
      conversation.map turnToMessage := by
  rw [prepare_messages_eq]
  refine ⟨?_, rfl, ?_, ?_⟩
  · simp only [List.length_cons, List.length_append, List.length_map,
      List.length_singleton, List.length_nil]
    omega
  · rw [← List.cons_append, List.getLast?_concat]
    rfl
  · rw [List.drop_one, List.tail_cons,
      show conversation.length = (conversation.map turnToMessage).length by simp,
      List.take_left]

/-- Witness for C1 at a concrete input. -/
theorem prepare_messages_shape_witness :
    (["a"] : List String) ≠ [] ∧ (["b"] : List String) ≠ [] ∧
    ((prepare_messages ["a"] ["b"] [Turn.mk "user" "hi"]).length =
        2 + ([Turn.mk "user" "hi"] : List Turn).length ∧
      ((prepare_messages ["a"] ["b"] [Turn.mk "user" "hi"]).head?).map Message.role =
        some "system" ∧
      ((prepare_messages ["a"] ["b"] [Turn.mk "user" "hi"]).getLast?).map Message.role =
        some "user" ∧
      ((prepare_messages ["a"] ["b"] [Turn.mk "user" "hi"]).drop 1).take
          ([Turn.mk "user" "hi"] : List Turn).length =
        ([Turn.mk "user" "hi"] : List Turn).map turnToMessage) :=
  ⟨by decide, by decide,
    prepare_messages_shape ["a"] ["b"] [Turn.mk "user" "hi"] (by decide) (by decide)⟩

/-- Claim C2: the final user message equals the fixed template
`Please answer this query: '<query>' with this provided context: <context>`
where the query and context are the space-joined input lists, in order,
with no deduplication. -/
theorem prepare_messages_user_template (queries context : List String)
    (conversation : List Turn) :
    (prepare_messages queries context conversation).getLast? =
      some { role := "user",
             content := "Please answer this query: \x27" ++
               String.intercalate " " queries ++
               "\x27 with this provided context: " ++
               String.intercalate " " context } := by
  rw [prepare_messages_eq, ← List.cons_append, List.getLast?_concat]

/-- Claim C3: composing with all-empty inputs succeeds and yields exactly a
system entry followed by a user entry embedding empty query and context
substrings. -/
theorem prepare_messages_empty_inputs :
    prepare_messages [] [] [] =
      [{ role := "system", content := system_prompt },
       { role := "user",
         content := "Please answer this query: \x27\x27 with this provided context: " }] := by
  rfl

/-- Claim C9: `prepare_messages` is deterministic — equal inputs give equal
output message sequences. -/
theorem prepare_messages_deterministic (q₁ q₂ c₁ c₂ : List String)
    (v₁ v₂ : List Turn) (hq : q₁ = q₂) (hc : c₁ = c₂) (hv : v₁ = v₂) :
    prepare_messages q₁ c₁ v₁ = prepare_messages q₂ c₂ v₂ := by
  rw [hq, hc, hv]

/-- Witness for C9 at a concrete input. -/
theorem prepare_messages_deterministic_witness :
    (["q"] : List String) = ["q"] ∧ (["c"] : List String) = ["c"] ∧
    ([Turn.mk "user" "hi"] : List Turn) = [Turn.mk "user" "hi"] ∧
    prepare_messages ["q"] ["c"] [Turn.mk "user" "hi"] =
      prepare_messages ["q"] ["c"] [Turn.mk "user" "hi"] :=
  ⟨rfl, rfl, rfl,
    prepare_messages_deterministic ["q"] ["q"] ["c"] ["c"]
      [Turn.mk "user" "hi"] [Turn.mk "user" "hi"] rfl rfl rfl⟩

lemma generate_stream_snd (oai : OpenAIModule) (env : String → Option String)
    (model_name : String) (queries context : List String) (conversation : List Turn)
    (pulls : List Pull) :
    (generate_stream oai env model_name queries context conversation pulls).2 =
      runStream pulls := rfl

lemma runStream_skip (pre post : List Pull) (chunk : Chunk)
    (h : chunk.choices = []) :
    runStream (pre ++ Pull.item chunk :: post) = runStream (pre ++ post) := by
  induction pre with
  | nil => simp [runStream, processChunk, h]
  | cons p pre ih => cases p <;> simp [runStream, ih]

/-- Claim C4: in `generate_stream`, a received chunk whose choices list is
empty produces no token event — the chunk is skipped and iteration continues
with the remaining chunks. -/
theorem generate_stream_skips_empty_choices (oai : OpenAIModule)
    (env : String → Option String) (model_name : String)
    (queries context : List String) (conversation : List Turn)
    (pre post : List Pull) (chunk : Chunk) (h : chunk.choices = []) :
    (generate_stream oai env model_name queries context conversation
        (pre ++ Pull.item chunk :: post)).2 =
      (generate_stream oai env model_name queries context conversation
        (pre ++ post)).2 := by
  rw [generate_stream_snd, generate_stream_snd]
  exact runStream_skip pre post chunk h

/-- Witness for C4 at a concrete input. -/
theorem generate_stream_skips_empty_choices_witness :
    (Chunk.mk []).choices = [] ∧
    (generate_stream (OpenAIModule.mk none "" "open_ai" none) (fun _ => none)
        "m" [] [] [] ([] ++ Pull.item (Chunk.mk []) :: [Pull.stop])).2 =
      (generate_stream (OpenAIModule.mk none "" "open_ai" none) (fun _ => none)
        "m" [] [] [] ([] ++ [Pull.stop])).2 :=
  ⟨rfl,
    generate_stream_skips_empty_choices (OpenAIModule.mk none "" "open_ai" none)
      (fun _ => none) "m" [] [] [] [] [Pull.stop] (Chunk.mk []) rfl⟩

/-- Claim C5: a chunk with a non-empty choices list yields exactly one token
event: its message is the first choice's delta content fragment when present
and the empty string otherwise, and its finish reason is copied verbatim from
that chunk's first choice. -/
theorem generate_stream_delta_event (chunk : Chunk) (choice : Choice)
    (rest : List Choice) (h : chunk.choices = choice :: rest) :
    processChunk chunk =
      [{ message := choice.delta.content.getD "",
         finish_reason := choice.finish_reason }] := by
  cases hd : choice.delta.content <;> simp [processChunk, h, hd]

/-- Witness for C5 at a concrete input (a role-only delta). -/
theorem generate_stream_delta_event_witness :
    (Chunk.mk [Choice.mk (Delta.mk none) (some "stop")]).choices =
        Choice.mk (Delta.mk none) (some "stop") :: ([] : List Choice) ∧
    processChunk (Chunk.mk [Choice.mk (Delta.mk none) (some "stop")]) =
      [{ message := ((Choice.mk (Delta.mk none) (some "stop")).delta.content).getD "",
         finish_reason := (Choice.mk (Delta.mk none) (some "stop")).finish_reason }] :=
  ⟨rfl,
    generate_stream_delta_event (Chunk.mk [Choice.mk (Delta.mk none) (some "stop")])
      (Choice.mk (Delta.mk none) (some "stop")) [] rfl⟩

lemma runStream_items_stop (chunks : List Chunk) :
    runStream (chunks.map Pull.item ++ [Pull.stop]) =
      (chunks.flatMap processChunk, none) := by
  induction chunks with
  | nil => rfl
  | cons c cs ih => simp [runStream, ih]

lemma runStream_items_raise (chunks : List Chunk) (e : String) :
    runStream (chunks.map Pull.item ++ [Pull.raise e]) =
      (chunks.flatMap processChunk, some e) := by
  induction chunks with
  | nil => rfl
  | cons c cs ih => simp [runStream, ih]

/-- Claim C6: for every finite chunk sequence, the stream loop terminates
normally when the transport signals end-of-stream (no error for exhaustion),
and any other exception raised by the backend mid-stream propagates to the
caller unchanged. -/
theorem generate_stream_termination_and_propagation (oai : OpenAIModule)
    (env : String → Option String) (model_name : String)
    (queries context : List String) (conversation : List Turn)
    (chunks : List Chunk) (e : String) :
    (generate_stream oai env model_name queries context conversation
        (chunks.map Pull.item ++ [Pull.stop])).2 =
      (chunks.flatMap processChunk, none) ∧
    (generate_stream oai env model_name queries context conversation
        (chunks.map Pull.item ++ [Pull.raise e])).2 =
      (chunks.flatMap processChunk, some e) :=
  ⟨runStream_items_stop chunks, runStream_items_raise chunks e⟩

/-- Claim C8: every streaming request sets the stream flag and temperature
exactly 0, and carries a deployment identifier (equal to the model name)
exactly when the effective API routing mode is the azure mode. -/
theorem generate_stream_request_flags (oai : OpenAIModule)
    (env : String → Option String) (model_name : String)
    (queries context : List String) (conversation : List Turn)
    (pulls : List Pull) :
    ((generate_stream oai env model_name queries context conversation pulls).1).stream = true ∧
    ((generate_stream oai env model_name queries context conversation pulls).1).temperature =
      some 0 ∧
    ((generate_stream oai env model_name queries context conversation pulls).1).deployment_id =
      (if effectiveApiType oai env = "azure" then some model_name else none) := by
  unfold generate_stream effectiveApiType
  cases h1 : env "OPENAI_API_TYPE" <;>
    cases h2 : env "OPENAI_API_BASE" <;>
      cases h3 : env "OPENAI_API_VERSION" <;>
        by_cases h4 : ((env "OPENAI_BASE_URL").getD "" ≠ "") <;>
          simp [h1, h2, h3, h4] <;>
            split <;> simp_all

lemma openai_not_in_generate_scope : "openai" ∉ generateScope := by decide

/-- Claim C10: for every input, the blocking `generate` raises `NameError`
on the unbound name `openai` before any backend completion request is issued,
and returns no answer. -/
theorem generate_raises_name_error (oai : OpenAIModule) (env : String → Option String)
    (backend : ChatRequest → BlockingCompletion) (model_name : String)
    (queries context : List String) (conversation : List Turn) :
    generate oai env backend model_name queries context conversation =
      ([], Except.error (PyError.nameError "openai")) := by
  have h : resolveOpenai generateScope oai = Except.error (PyError.nameError "openai") := by
    unfold resolveOpenai
    rw [if_neg openai_not_in_generate_scope]
  simp [generate, h]

/-- Claim C7 (code bug): at Scenario A's input the blocking `generate` issues
no backend request and raises `NameError` on `openai` instead of returning
the backend's first-choice content string. -/
theorem generate_scenarioA_raises :
    generate oaiDefault envEmpty backendFixed "gemini-1.5-pro-preview-0409"
        ["What is X?"] ["X is a protocol."] [] =
      ([], Except.error (PyError.nameError "openai")) := by
  rfl
